import Mathlib

/-!
Shallow embedding of the retrieval-augmented query pipeline of src/app.py.

The embedded parts are: the query construction of perform_vector_search
(lines 63-109), the derived label CASE expressions computed inside the SQL
statement (lines 72-80), the context assembly and prompt construction
(lines 153-161 and 193-202), the /hello orchestrator with its nested
try/except structure (lines 178-219), and the filter construction of the
/api/search endpoint (lines 221-239).

External collaborators (the SQL database and the hosted language model) are
modelled as parameters: retrieval is an Except value and the model client is
a function from the prompt string to an Except value, so every control path
of the orchestrator is a function of those parameters.
-/

/-- A value bound into the parameterized SQL statement, mirroring the
elements of the Python list named params: the user message text, integer
limits and thresholds, and the percent-wrapped keyword pattern. -/
inductive SqlParam where
  | str (s : String)
  | int (n : Int)
deriving DecidableEq, Repr

/-- The input configuration of perform_vector_search (src/app.py lines
39-40), with the default argument values of the Python signature. -/
structure SearchFilter where
  user_message : String
  max_results : Int := 5
  min_score : Int := 4
  min_text_length : Int := 50
  keyword : Option String := none
  exclude_anonymous : Bool := true
deriving DecidableEq, Repr

/-- The fixed triple-quoted SQL template of lines 63-83: embedding
declaration, TOP(?) select list with the two CASE columns, and the base
WHERE 1=1, byte for byte including the indentation of the Python literal. -/
def baseSql : String :=
  "\n            DECLARE @e VECTOR(1536);\n            EXEC dbo.GET_EMBEDDINGS @model = \x27text-embedding-ada-002\x27, @text = ?, @embedding = @e OUTPUT;\n            \n            SELECT TOP(?)\n                f.Score,\n                f.Summary,\n                f.Text,\n                VECTOR_DISTANCE(\x27cosine\x27, @e, VectorBinary) AS Distance,\n                CASE\n                    WHEN LEN(f.Text) > 100 THEN \x27Detailed Review\x27\n                    ELSE \x27Short Review\x27\n                END AS ReviewLength,\n                CASE\n                    WHEN f.Score >= 4 THEN \x27High Score\x27\n                    WHEN f.Score BETWEEN 2 AND 3 THEN \x27Medium Score\x27\n                    ELSE \x27Low Score\x27\n                END AS ScoreCategory\n            FROM finefoodembeddings10k$ f\n            WHERE 1=1\n        "

/-- The anonymous-exclusion literal appended at line 89; it binds no
parameter. -/
def anonClause : String := " AND f.UserId NOT LIKE \x27Anonymous%\x27"

/-- The minimum-score clause appended at line 92. -/
def minScoreClause : String := " AND f.Score >= ?"

/-- The minimum-text-length clause appended at line 96. -/
def minTextLenClause : String := " AND LEN(f.Text) > ?"

/-- The keyword clause appended at line 100. -/
def keywordClause : String := " AND f.Text LIKE ?"

/-- The fixed ORDER BY suffix appended at lines 104-109. -/
def orderByClause : String :=
  "\n            ORDER BY\n                Distance,\n                f.Score DESC,\n                ReviewLength DESC;\n        "

/-- Python truthiness of an optional string: None and the empty string are
falsy, every other string is truthy. -/
def strTruthy : Option String → Bool
  | none => false
  | some s => !s.isEmpty

/-- The query-construction part of perform_vector_search (lines 63-109): it
returns the SQL text and the ordered bound-parameter list. The initial
params list is [user_message, max_results]; the conditional clauses are
appended in the fixed source order (anonymous exclusion, minimum score,
minimum text length, keyword) with their parameters appended at the same
time, and the ORDER BY suffix closes the statement. -/
def buildSearchQuery (f : SearchFilter) : String × List SqlParam :=
  let sql := baseSql
  let params : List SqlParam := [.str f.user_message, .int f.max_results]
  let (sql, params) :=
    if f.exclude_anonymous then (sql ++ anonClause, params) else (sql, params)
  let (sql, params) :=
    if f.min_score > 0 then (sql ++ minScoreClause, params ++ [.int f.min_score])
    else (sql, params)
  let (sql, params) :=
    if f.min_text_length > 0 then
      (sql ++ minTextLenClause, params ++ [.int f.min_text_length])
    else (sql, params)
  let (sql, params) :=
    match f.keyword with
    | some k =>
      if k.isEmpty then (sql, params)
      else (sql ++ keywordClause, params ++ [.str ("%" ++ k ++ "%")])
    | none => (sql, params)
  (sql ++ orderByClause, params)

/-- Number of appended conditional clauses that bind a parameter (the
anonymous-exclusion clause binds none, so it does not count). -/
def bindingClauseCount (f : SearchFilter) : Nat :=
  (if f.min_score > 0 then 1 else 0) + (if f.min_text_length > 0 then 1 else 0)
    + (if strTruthy f.keyword then 1 else 0)

/-- The ReviewLength CASE column of lines 72-75, as a function of the text
length LEN(f.Text). -/
def reviewLength (textLen : Nat) : String :=
  if textLen > 100 then "Detailed Review" else "Short Review"

/-- The ScoreCategory CASE column of lines 76-80, as a function of f.Score. -/
def scoreCategory (score : Int) : String :=
  if score ≥ 4 then "High Score"
  else if 2 ≤ score ∧ score ≤ 3 then "Medium Score"
  else "Low Score"

/-- One retrieved row as consumed by the context assembly of lines 194-198,
which reads only the score and text fields of the result dictionary. The
summary column is carried along; the floating-point distance column, used
only for ordering inside the database, is not modelled. -/
structure ReviewRecord where
  score : Int
  summary : String := ""
  text : String
deriving DecidableEq, Repr

/-- The per-record context line of line 196. -/
def formatRecord (r : ReviewRecord) : String :=
  "Review (Score: " ++ toString r.score ++ "/5): " ++ r.text

/-- The context assembly of lines 193-202: lines joined with a blank line
for a non-empty result list, None for an empty one (Python truthiness of
the list). -/
def buildContext (results : List ReviewRecord) : Option String :=
  if results.isEmpty then none
  else some (String.intercalate "\n\n" (results.map formatRecord))

/-- The prompt construction of get_llm_response, lines 153-161: the
instruction template is applied exactly when the context argument is truthy
in Python, so None and the empty string both yield the raw query. -/
def buildPrompt (query : String) (context : Option String) : String :=
  match context with
  | some c =>
    if c.isEmpty then query
    else
      "Based on the following information:\n            \n" ++ c
        ++ "\n\nAnswer the user\x27s question: " ++ query
  | none => query

/-- Outcome of the /hello route: the rendered hello.html response, the
redirect to the index page, or the rendered error.html page. -/
inductive HelloResult where
  | rendered (response : String)
  | redirected
  | errorPage (message : String)
deriving DecidableEq, Repr

/-- Result of one /hello request together with an instrumentation trace:
whether perform_vector_search was invoked, and the list of prompts passed
to the language model client, in call order. -/
structure HelloOutcome where
  result : HelloResult
  retrievalAttempted : Bool
  promptsSent : List String
deriving DecidableEq, Repr

/-- The /hello orchestrator of lines 178-219. The form value is an optional
string (request.form.get returns None when absent) and both None and the
empty string are falsy, taking the redirect branch. The inner try of lines
187-209 wraps both perform_vector_search and the first get_llm_response
call, so a failure of either one is caught there and triggers the fallback
call get_llm_response(user_query) with no context; a failure of that
fallback call propagates to the outer try and renders error.html. -/
def runHello (userQuery : Option String)
    (retrieve : Except String (List ReviewRecord))
    (llm : String → Except String String) : HelloOutcome :=
  match userQuery with
  | none => ⟨.redirected, false, []⟩
  | some q =>
    if q.isEmpty then ⟨.redirected, false, []⟩
    else
      match retrieve with
      | .ok searchResults =>
        let context := buildContext searchResults
        let p := buildPrompt q context
        match llm p with
        | .ok response => ⟨.rendered response, true, [p]⟩
        | .error _ =>
          let p2 := buildPrompt q none
          match llm p2 with
          | .ok response => ⟨.rendered response, true, [p, p2]⟩
          | .error e => ⟨.errorPage e, true, [p, p2]⟩
      | .error _ =>
        let p2 := buildPrompt q none
        match llm p2 with
        | .ok response => ⟨.rendered response, true, [p2]⟩
        | .error e => ⟨.errorPage e, true, [p2]⟩

/-- The fields of the /api/search JSON body that lines 225-232 read, plus
the two fields a caller could supply in the body that the handler never
reads. Each optional field is None when the key is missing. -/
structure ApiRequest where
  query : String
  keyword : Option String := none
  min_score : Option Int := none
  max_results : Option Int := none
  min_text_length : Option Int := none
  exclude_anonymous : Option Bool := none
deriving Repr

/-- The SearchFilter that api_search passes to perform_vector_search (lines
234-239): keyword, min_score and max_results come from the body with
defaults 4 and 5, while min_text_length and exclude_anonymous are never
passed, so the signature defaults 50 and true of perform_vector_search
always apply. -/
def apiSearchFilter (body : ApiRequest) : SearchFilter :=
  { user_message := body.query
    keyword := body.keyword
    min_score := body.min_score.getD 4
    max_results := body.max_results.getD 5 }

/-- A model client that fails on every prompt except the bare query "hi":
it exhibits the behavior of the /hello route when the language model call
on the context-augmented prompt raises but the fallback call succeeds. -/
def contextFailLlm : String → Except String String :=
  fun p => if p = "hi" then .ok "fallback answer" else .error "model down"

/-- Closed form of buildSearchQuery: the SQL text is the base template with
the four optional clauses appended in the fixed source order, and the
parameter list is the two initial parameters followed by the optional
parameters in that same order. -/
theorem buildSearchQuery_spec (f : SearchFilter) :
    buildSearchQuery f =
      (baseSql ++ (if f.exclude_anonymous then anonClause else "")
        ++ (if f.min_score > 0 then minScoreClause else "")
        ++ (if f.min_text_length > 0 then minTextLenClause else "")
        ++ (if strTruthy f.keyword then keywordClause else "")
        ++ orderByClause,
      [SqlParam.str f.user_message, SqlParam.int f.max_results]
        ++ (if f.min_score > 0 then [SqlParam.int f.min_score] else [])
        ++ (if f.min_text_length > 0 then [SqlParam.int f.min_text_length] else [])
        ++ (if strTruthy f.keyword then
              [SqlParam.str ("%" ++ f.keyword.getD "" ++ "%")] else [])) := by
  obtain ⟨um, mr, ms, mtl, kw, ea⟩ := f
  simp only [buildSearchQuery, strTruthy]
  cases ea <;> cases kw <;> split_ifs <;>
    simp_all [String.append_empty, String.append_assoc]

/-- C1: for every SearchFilter the built statement binds the raw query text
first and max_results second, then appends the optional clauses in the
fixed order anonymous-exclusion (no parameter), minimum-score (binding
min_score exactly when min_score > 0), minimum-text-length (binding
min_text_length exactly when min_text_length > 0), keyword (binding the
percent-wrapped keyword exactly when the keyword is truthy); the bound
parameter list is ordered exactly as the appended clauses are. -/
theorem c1_param_and_clause_order (f : SearchFilter) :
    buildSearchQuery f =
      (baseSql ++ (if f.exclude_anonymous then anonClause else "")
        ++ (if f.min_score > 0 then minScoreClause else "")
        ++ (if f.min_text_length > 0 then minTextLenClause else "")
        ++ (if strTruthy f.keyword then keywordClause else "")
        ++ orderByClause,
      [SqlParam.str f.user_message, SqlParam.int f.max_results]
        ++ (if f.min_score > 0 then [SqlParam.int f.min_score] else [])
        ++ (if f.min_text_length > 0 then [SqlParam.int f.min_text_length] else [])
        ++ (if strTruthy f.keyword then
              [SqlParam.str ("%" ++ f.keyword.getD "" ++ "%")] else [])) :=
  buildSearchQuery_spec f

/-- C6: the number of bound parameters always equals the number of appended
parameter-binding clauses plus two; with exclude_anonymous true, min_score
4, min_text_length 50 and no keyword the parameters are exactly
[query_text, max_results, min_score, min_text_length] in that order and the
statement carries the anonymous-exclusion literal and no keyword clause;
setting min_score to 0 drops both the minimum-score clause and its
parameter. -/
theorem c6_param_count_and_examples :
    (∀ f : SearchFilter,
      (buildSearchQuery f).2.length = 2 + bindingClauseCount f)
  ∧ (∀ q : String, ∀ m : Int,
      buildSearchQuery ⟨q, m, 4, 50, none, true⟩ =
        (baseSql ++ anonClause ++ minScoreClause ++ minTextLenClause ++ orderByClause,
         [SqlParam.str q, SqlParam.int m, SqlParam.int 4, SqlParam.int 50]))
  ∧ (∀ q : String, ∀ m : Int,
      buildSearchQuery ⟨q, m, 0, 50, none, true⟩ =
        (baseSql ++ anonClause ++ minTextLenClause ++ orderByClause,
         [SqlParam.str q, SqlParam.int m, SqlParam.int 50])) := by
  refine ⟨?_, fun q m => rfl, fun q m => rfl⟩
  intro f
  rw [buildSearchQuery_spec]
  simp only [bindingClauseCount]
  split_ifs <;> simp

/-- C8: any min_score less than or equal to zero, negative values from the
JSON body included, behaves exactly like min_score = 0: the built statement
and its parameter list coincide with the ones built at min_score = 0, so
the minimum-score clause and its parameter are omitted entirely. -/
theorem c8_nonpositive_min_score (f : SearchFilter) (h : f.min_score ≤ 0) :
    buildSearchQuery f = buildSearchQuery { f with min_score := 0 } := by
  rw [buildSearchQuery_spec, buildSearchQuery_spec]
  have h1 : ¬ (f.min_score > 0) := by omega
  simp [h1]

/-- Witness for c8_nonpositive_min_score at min_score = -3. -/
theorem c8_nonpositive_min_score_witness :
    buildSearchQuery ⟨"q", 5, -3, 50, none, true⟩
      = buildSearchQuery ⟨"q", 5, 0, 50, none, true⟩ :=
  c8_nonpositive_min_score ⟨"q", 5, -3, 50, none, true⟩ (by decide)

/-- C7: the derived labels meet the exact boundaries: text length strictly
greater than 100 yields Detailed Review (101 Detailed, 100 Short), score at
least 4 yields High Score, score between 2 and 3 inclusive yields Medium
Score, every other score yields Low Score (4 High, 3 Medium, 2 Medium, 1
Low). -/
theorem c7_label_boundaries :
    (∀ n : Nat, 100 < n → reviewLength n = "Detailed Review")
  ∧ (∀ n : Nat, n ≤ 100 → reviewLength n = "Short Review")
  ∧ (∀ s : Int, 4 ≤ s → scoreCategory s = "High Score")
  ∧ (∀ s : Int, 2 ≤ s → s ≤ 3 → scoreCategory s = "Medium Score")
  ∧ (∀ s : Int, s < 4 → ¬ (2 ≤ s ∧ s ≤ 3) → scoreCategory s = "Low Score")
  ∧ reviewLength 101 = "Detailed Review"
  ∧ reviewLength 100 = "Short Review"
  ∧ scoreCategory 4 = "High Score"
  ∧ scoreCategory 3 = "Medium Score"
  ∧ scoreCategory 2 = "Medium Score"
  ∧ scoreCategory 1 = "Low Score" := by
  refine ⟨?_, ?_, ?_, ?_, ?_, rfl, rfl, rfl, rfl, rfl, rfl⟩
  · intro n h
    simp [reviewLength, h]
  · intro n h
    simp [reviewLength]
    omega
  · intro s h
    simp [scoreCategory, h]
  · intro s h2 h3
    have h4 : ¬ (4 ≤ s) := by omega
    simp [scoreCategory, h2, h3, h4]
  · intro s h4 hm
    have h1 : ¬ (4 ≤ s) := by omega
    simp only [scoreCategory, if_neg h1, if_neg hm]

/-- Witness for c7_label_boundaries at length 150 and score 0. -/
theorem c7_label_boundaries_witness :
    reviewLength 150 = "Detailed Review" ∧ scoreCategory 0 = "Low Score" :=
  ⟨c7_label_boundaries.1 150 (by decide),
   c7_label_boundaries.2.2.2.2.1 0 (by decide) (by decide)⟩

/-- C5: the context assembler turns an empty result list into an absent
context (None, not the empty string), and a non-empty list into the lines
Review (Score: score/5): text joined by one blank line in input order; on
the two-record example the output is exactly the claimed block. -/
theorem c5_context_assembler :
    buildContext [] = none
  ∧ (∀ results : List ReviewRecord, results ≠ [] →
      buildContext results
        = some (String.intercalate "\n\n" (results.map formatRecord)))
  ∧ (∀ r : ReviewRecord,
      formatRecord r = "Review (Score: " ++ toString r.score ++ "/5): " ++ r.text)
  ∧ buildContext [⟨5, "", "A"⟩, ⟨2, "", "B"⟩]
      = some "Review (Score: 5/5): A\n\nReview (Score: 2/5): B" := by
  refine ⟨rfl, ?_, fun r => rfl, rfl⟩
  intro results h
  simp [buildContext, h]

/-- Witness for c5_context_assembler on a one-record list. -/
theorem c5_context_assembler_witness :
    buildContext [⟨3, "", "x"⟩] = some "Review (Score: 3/5): x" := by
  rw [c5_context_assembler.2.1 [⟨3, "", "x"⟩] (by decide)]
  rfl

/-- C10: the prompt builder treats the empty-string context exactly like the
absent context: both give the raw query, and the instruction template is
applied only to a non-empty context. -/
theorem c10_empty_context_like_absent (q : String) :
    buildPrompt q (some "") = q
  ∧ buildPrompt q none = q
  ∧ (∀ c : String, ¬ c.isEmpty = true →
      buildPrompt q (some c)
        = "Based on the following information:\n            \n" ++ c
            ++ "\n\nAnswer the user\x27s question: " ++ q) := by
  refine ⟨rfl, rfl, ?_⟩
  intro c h
  simp [buildPrompt, h]

/-- Witness for c10_empty_context_like_absent at a concrete query and
context. -/
theorem c10_empty_context_like_absent_witness :
    buildPrompt "who" (some "") = "who"
  ∧ buildPrompt "who" (some "ctx")
      = "Based on the following information:\n            \nctx\n\nAnswer the user\x27s question: who" := by
  refine ⟨(c10_empty_context_like_absent "who").1, ?_⟩
  rw [(c10_empty_context_like_absent "who").2.2 "ctx" (by decide)]
  rfl

/-- C4: a blank or empty user query (absent form field or empty string)
short-circuits the /hello request to the index redirect before retrieval or
the model client is invoked: the vector search is never attempted and the
list of prompts sent to the model is empty, for every behavior of the two
collaborators. -/
theorem c4_blank_query_short_circuits (userQuery : Option String)
    (retrieve : Except String (List ReviewRecord))
    (llm : String → Except String String)
    (h : userQuery = none ∨ userQuery = some "") :
    runHello userQuery retrieve llm
      = ⟨HelloResult.redirected, false, []⟩ := by
  rcases h with h | h <;> subst h <;> rfl

/-- Witness for c4_blank_query_short_circuits at the empty-string query. -/
theorem c4_blank_query_short_circuits_witness :
    runHello (some "") (Except.ok []) (fun _ => Except.ok "answer")
      = ⟨HelloResult.redirected, false, []⟩ :=
  c4_blank_query_short_circuits (some "") (Except.ok [])
    (fun _ => Except.ok "answer") (Or.inr rfl)

/-- C2: when retrieval raises, /hello falls back for every retrieval error:
exactly one prompt is sent to the model client and it equals the raw user
query (no instruction template), and when that model call succeeds its raw
output is rendered as the response, so the retrieval error is never fatal
to the request. -/
theorem c2_retrieval_failure_fallback (q err : String)
    (llm : String → Except String String) (h : ¬ q.isEmpty = true) :
    (runHello (some q) (Except.error err) llm).promptsSent = [q]
  ∧ (∀ r : String, llm q = Except.ok r →
      (runHello (some q) (Except.error err) llm).result = HelloResult.rendered r) := by
  constructor
  · simp only [runHello, if_neg h, buildPrompt]
    cases llm q <;> rfl
  · intro r hr
    simp only [runHello, if_neg h, buildPrompt, hr]

/-- Witness for c2_retrieval_failure_fallback with a model client that
answers every prompt. -/
theorem c2_retrieval_failure_fallback_witness :
    (runHello (some "hi") (Except.error "db down")
        (fun _ => Except.ok "ans")).promptsSent = ["hi"]
  ∧ (runHello (some "hi") (Except.error "db down")
        (fun _ => Except.ok "ans")).result = HelloResult.rendered "ans" :=
  ⟨(c2_retrieval_failure_fallback "hi" "db down" (fun _ => Except.ok "ans")
      (by decide)).1,
   (c2_retrieval_failure_fallback "hi" "db down" (fun _ => Except.ok "ans")
      (by decide)).2 "ans" rfl⟩

/-- C3 evaluation: a failure of the language model client is absorbed by the
/hello route rather than surfaced. Retrieval succeeds with one record, the
model client raises on the context-augmented prompt (first conjunct), yet
the request still renders the fallback answer successfully (second
conjunct) because the inner except block of lines 207-210 catches the model
error as if it were a vector-search failure and retries without context. -/
theorem c3_model_failure_absorbed :
    contextFailLlm
        (buildPrompt "hi" (buildContext [⟨5, "s", "A"⟩]))
      = Except.error "model down"
  ∧ runHello (some "hi") (Except.ok [⟨5, "s", "A"⟩]) contextFailLlm
      = ⟨HelloResult.rendered "fallback answer", true,
         [buildPrompt "hi" (buildContext [⟨5, "s", "A"⟩]), "hi"]⟩ := by
  constructor <;> rfl

/-- C9: the /api/search handler always runs with min_text_length = 50 and
exclude_anonymous = true regardless of the JSON body: the resulting filter
carries those fixed defaults, the built statement carries the
anonymous-exclusion literal and the text-length clause, and the value 50 is
among the bound parameters. -/
theorem c9_api_fixed_defaults (body : ApiRequest) :
    (apiSearchFilter body).min_text_length = 50
  ∧ (apiSearchFilter body).exclude_anonymous = true
  ∧ (buildSearchQuery (apiSearchFilter body)).1
      = baseSql ++ anonClause
        ++ (if (apiSearchFilter body).min_score > 0 then minScoreClause else "")
        ++ minTextLenClause
        ++ (if strTruthy body.keyword then keywordClause else "")
        ++ orderByClause
  ∧ SqlParam.int 50 ∈ (buildSearchQuery (apiSearchFilter body)).2 := by
  refine ⟨rfl, rfl, ?_, ?_⟩
  · rw [buildSearchQuery_spec]
    rfl
  · rw [buildSearchQuery_spec]
    simp [apiSearchFilter]
